import Mathlib

/-!
Verification development for the AI PR review tool (`src/main.py`).

The file embeds the Python script shallowly:

* JSON values decoded by `response.json()` / `json.loads` become `JsonVal`;
* Python truthiness (`if not issues:` ...) becomes `JsonVal.truthy`;
* `json.loads` becomes the fueled parser `parseJson`;
* every Streamlit output call (`st.error`, `st.markdown`, `st.code`, ...)
  becomes a `RenderItem` appended to an output list;
* an uncaught Python exception is modelled by an `Option.none` result;
* the HTTP layer is an oracle parameter: each network function takes the
  outcome the remote endpoint would produce for its single request, and the
  embedding counts how many requests were issued.
-/

set_option autoImplicit false

namespace PRReview

/-- A decoded JSON value, as produced by Python's `json.loads` /
`requests.Response.json()`.  Numbers keep their source lexeme (the claims
never compute with them); objects keep their member order, with duplicate
keys resolved last-wins at lookup time, as Python's `dict` does. -/
inductive JsonVal where
  | null : JsonVal
  | bool : Bool → JsonVal
  | num : String → JsonVal
  | str : String → JsonVal
  | arr : List JsonVal → JsonVal
  | obj : List (String × JsonVal) → JsonVal

/-- Zero test on a JSON number lexeme (all digits of the mantissa are 0). -/
def numIsZero (s : String) : Bool :=
  ((s.toList.takeWhile (fun c => c ≠ 'e' ∧ c ≠ 'E')).filter Char.isDigit).all
    (fun c => c == '0')

/-- Python truthiness of a decoded JSON value: `None`, `False`, zero numbers
and empty strings/lists/dicts are falsy, everything else truthy. -/
def JsonVal.truthy : JsonVal → Bool
  | .null => false
  | .bool b => b
  | .num s => !(numIsZero s)
  | .str s => !s.isEmpty
  | .arr xs => !xs.isEmpty
  | .obj fs => !fs.isEmpty

/-- Key lookup in a decoded JSON object.  A Python `dict` built by
`json.loads` keeps the **last** occurrence of a duplicated key, so lookup
returns the last binding. -/
def lookupKey (fields : List (String × JsonVal)) (key : String) : Option JsonVal :=
  ((fields.filter (fun p => p.1 == key)).getLast?).map (fun p => p.2)

/-- Python `dict.get(key, default)` on a decoded JSON object. -/
def dictGetD (fields : List (String × JsonVal)) (key : String) (d : JsonVal) : JsonVal :=
  (lookupKey fields key).getD d

/-- Python truthiness of an environment variable as returned by
`os.getenv`: `None` (unset) and the empty string are falsy. -/
def tokenTruthy : Option String → Bool
  | none => false
  | some s => !s.isEmpty

/-- The apostrophe character, used by Python `repr` for strings. -/
def sq : String := String.singleton (Char.ofNat 39)

mutual

/-- Python `repr` of a decoded JSON value (approximation: string escaping
and float canonicalisation are not reproduced; the reviewed flows only ever
format strings and `None`). -/
def pyRepr : JsonVal → String
  | .null => "None"
  | .bool true => "True"
  | .bool false => "False"
  | .num s => s
  | .str s => sq ++ s ++ sq
  | .arr xs => "[" ++ pyReprElems xs ++ "]"
  | .obj fs => "\x7b" ++ pyReprFields fs ++ "\x7d"

/-- Comma-separated `repr`s of list elements. -/
def pyReprElems : List JsonVal → String
  | [] => ""
  | [x] => pyRepr x
  | x :: y :: rest => pyRepr x ++ ", " ++ pyReprElems (y :: rest)

/-- Comma-separated `repr`s of dict members. -/
def pyReprFields : List (String × JsonVal) → String
  | [] => ""
  | [(k, v)] => sq ++ k ++ sq ++ ": " ++ pyRepr v
  | (k, v) :: y :: rest => sq ++ k ++ sq ++ ": " ++ pyRepr v ++ ", " ++ pyReprFields (y :: rest)

end

/-- Python `str()` of a decoded JSON value, as an f-string interpolation
performs: strings pass through unquoted, everything else as `repr`. -/
def pyStr (j : JsonVal) : String :=
  match j with
  | .str s => s
  | v => pyRepr v

/-! ### `json.loads`

A fueled recursive-descent parser for the JSON accepted by Python's
`json.loads` (strict mode): the six value forms, `NaN` / `Infinity` /
`-Infinity` extensions, escape sequences in strings, and surrounding
whitespace.  `none` models a raised `json.JSONDecodeError`. -/

/-- Skip JSON whitespace. -/
def skipWs : List Char → List Char
  | c :: cs => if c == ' ' || c == '\t' || c == '\n' || c == '\r' then skipWs cs else c :: cs
  | [] => []

/-- Hex digit value. -/
def hexVal (c : Char) : Option Nat :=
  if '0' ≤ c ∧ c ≤ '9' then some (c.toNat - '0'.toNat)
  else if 'a' ≤ c ∧ c ≤ 'f' then some (c.toNat - 'a'.toNat + 10)
  else if 'A' ≤ c ∧ c ≤ 'F' then some (c.toNat - 'A'.toNat + 10)
  else none

/-- Parse the body of a JSON string after the opening quote, returning the
decoded contents and the input after the closing quote. -/
def parseStringBody : Nat → List Char → Option (String × List Char)
  | 0, _ => none
  | _ + 1, [] => none
  | fuel + 1, c :: cs =>
    if c == '"' then some ("", cs)
    else if c == '\\' then
      match cs with
      | [] => none
      | e :: cs2 =>
        let cont := fun (ch : Char) (rest : List Char) =>
          (parseStringBody fuel rest).map (fun p => (String.singleton ch ++ p.1, p.2))
        if e == '"' then cont '"' cs2
        else if e == '\\' then cont '\\' cs2
        else if e == '/' then cont '/' cs2
        else if e == 'b' then cont (Char.ofNat 8) cs2
        else if e == 'f' then cont (Char.ofNat 12) cs2
        else if e == 'n' then cont '\n' cs2
        else if e == 'r' then cont '\r' cs2
        else if e == 't' then cont '\t' cs2
        else if e == 'u' then
          match cs2 with
          | a :: b :: c3 :: d :: cs3 =>
            match hexVal a, hexVal b, hexVal c3, hexVal d with
            | some ha, some hb, some hc, some hd =>
              cont (Char.ofNat (((ha * 16 + hb) * 16 + hc) * 16 + hd)) cs3
            | _, _, _, _ => none
          | _ => none
        else none
    else if c.toNat < 32 then none
    else (parseStringBody fuel cs).map (fun p => (String.singleton c ++ p.1, p.2))

/-- Take a run of decimal digits. -/
def takeDigits (cs : List Char) : List Char × List Char :=
  (cs.takeWhile Char.isDigit, cs.dropWhile Char.isDigit)

/-- Parse a JSON number lexeme (after an optional already-consumed sign is
still present in the input).  Returns the lexeme and the rest. -/
def parseNumberLex (cs0 : List Char) : Option (String × List Char) :=
  let (sign, cs1) :=
    match cs0 with
    | '-' :: rest => ("-", rest)
    | _ => ("", cs0)
  match cs1 with
  | [] => none
  | c :: _ =>
    if !c.isDigit then none
    else
      let (intPart, cs2) := takeDigits cs1
      -- JSON forbids leading zeros: "0" alone or a first digit 1-9.
      if intPart.length > 1 ∧ intPart.headI = '0' then none
      else
        let (fracPart, cs3) :=
          match cs2 with
          | '.' :: rest =>
            let (ds, rest2) := takeDigits rest
            if ds.isEmpty then ([], cs2) else ('.' :: ds, rest2)
          | _ => ([], cs2)
        if cs3.length < cs2.length ∨ fracPart.isEmpty then
          match cs2, fracPart with
          | '.' :: _, [] => none   -- a dot with no digits is an error
          | _, _ =>
            let (expPart, cs4) :=
              match cs3 with
              | e :: rest =>
                if e == 'e' || e == 'E' then
                  match rest with
                  | s :: rest2 =>
                    if s == '+' || s == '-' then
                      let (ds, rest3) := takeDigits rest2
                      if ds.isEmpty then ([], cs3) else (e :: s :: ds, rest3)
                    else
                      let (ds, rest3) := takeDigits rest
                      if ds.isEmpty then ([], cs3) else (e :: ds, rest3)
                  | [] => ([], cs3)
                else ([], cs3)
              | [] => ([], cs3)
            match cs3, expPart with
            | e :: _, [] =>
              if e == 'e' || e == 'E' then none   -- exponent marker with no digits
              else some (sign ++ String.mk (intPart ++ fracPart), cs3)
            | _, _ => some (sign ++ String.mk (intPart ++ fracPart ++ expPart), cs4)
        else none

mutual

/-- Parse one JSON value (fuel-bounded). -/
def parseValue : Nat → List Char → Option (JsonVal × List Char)
  | 0, _ => none
  | fuel + 1, input =>
    match skipWs input with
    | [] => none
    | c :: cs =>
      if c == '"' then
        (parseStringBody fuel cs).map (fun p => (JsonVal.str p.1, p.2))
      else if c == Char.ofNat 123 then
        parseMembers fuel cs true
      else if c == '[' then
        parseElements fuel cs true
      else if c == 't' then
        match cs with
        | 'r' :: 'u' :: 'e' :: rest => some (JsonVal.bool true, rest)
        | _ => none
      else if c == 'f' then
        match cs with
        | 'a' :: 'l' :: 's' :: 'e' :: rest => some (JsonVal.bool false, rest)
        | _ => none
      else if c == 'n' then
        match cs with
        | 'u' :: 'l' :: 'l' :: rest => some (JsonVal.null, rest)
        | _ => none
      else if c == 'N' then
        match cs with
        | 'a' :: 'N' :: rest => some (JsonVal.num "NaN", rest)
        | _ => none
      else if c == 'I' then
        match cs with
        | 'n' :: 'f' :: 'i' :: 'n' :: 'i' :: 't' :: 'y' :: rest =>
          some (JsonVal.num "Infinity", rest)
        | _ => none
      else if c == '-' ∧ cs.headI = 'I' then
        match cs with
        | 'I' :: 'n' :: 'f' :: 'i' :: 'n' :: 'i' :: 't' :: 'y' :: rest =>
          some (JsonVal.num "-Infinity", rest)
        | _ => none
      else
        (parseNumberLex (c :: cs)).map (fun p => (JsonVal.num p.1, p.2))

/-- Parse object members after the opening brace (`first` is true before the
first member), through the closing brace. -/
def parseMembers : Nat → List Char → Bool → Option (JsonVal × List Char)
  | 0, _, _ => none
  | fuel + 1, input, first =>
    match skipWs input with
    | [] => none
    | c :: cs =>
      if c == Char.ofNat 125 ∧ first then some (JsonVal.obj [], cs)
      else
        if c == '"' then
          match parseStringBody fuel cs with
          | none => none
          | some (key, rest1) =>
            match skipWs rest1 with
            | ':' :: rest2 =>
              match parseValue fuel rest2 with
              | none => none
              | some (v, rest3) =>
                match skipWs rest3 with
                | ',' :: rest4 =>
                  match parseMembers fuel rest4 false with
                  | some (JsonVal.obj fs, rest5) => some (JsonVal.obj ((key, v) :: fs), rest5)
                  | _ => none
                | d :: rest4 =>
                  if d == Char.ofNat 125 then some (JsonVal.obj [(key, v)], rest4) else none
                | [] => none
            | _ => none
        else none

/-- Parse array elements after the opening bracket (`first` is true before
the first element), through the closing bracket. -/
def parseElements : Nat → List Char → Bool → Option (JsonVal × List Char)
  | 0, _, _ => none
  | fuel + 1, input, first =>
    match skipWs input with
    | [] => none
    | c :: cs =>
      if c == ']' ∧ first then some (JsonVal.arr [], cs)
      else
        match parseValue fuel (c :: cs) with
        | none => none
        | some (v, rest1) =>
          match skipWs rest1 with
          | ',' :: rest2 =>
            match parseElements fuel rest2 false with
            | some (JsonVal.arr xs, rest3) => some (JsonVal.arr (v :: xs), rest3)
            | _ => none
          | ']' :: rest2 => some (JsonVal.arr [v], rest2)
          | _ => none

end

/-- Model of `json.loads`: parse a whole document, requiring only whitespace after
the value.  `none` models `json.JSONDecodeError`. -/
def parseJson (s : String) : Option JsonVal :=
  match parseValue (4 * s.length + 16) s.toList with
  | some (v, rest) => if (skipWs rest).isEmpty then some v else none
  | none => none

/-! ### Envelope extraction (`display_review_report`, lines 103-109)

`review_data['candidates'][0]['content']['parts'][0]['text']` under Python
subscript semantics.  `KeyError` / `IndexError` are caught by the
surrounding `except`; a `TypeError` (subscripting a value of the wrong
type, or `json.loads` on a non-string) is **not** in the except tuple and
propagates uncaught. -/

/-- State of the subscript chain: a value, a caught exception
(`KeyError`/`IndexError`), or an uncaught one (`TypeError`). -/
inductive Step where
  | val : JsonVal → Step
  | caught : Step
  | uncaught : Step

/-- Python `x[key]` for a string key: dict lookup (missing key raises a
caught `KeyError`), anything else raises an uncaught `TypeError`. -/
def Step.subKey (s : Step) (key : String) : Step :=
  match s with
  | .val (.obj fields) =>
    match lookupKey fields key with
    | some v => .val v
    | none => .caught
  | .val _ => .uncaught
  | x => x

/-- Python `x[0]`: list head (`IndexError` on empty is caught), first
character of a string (`IndexError` on empty), `KeyError` on a dict (JSON
object keys are strings, so the integer key 0 is never present), and an
uncaught `TypeError` otherwise. -/
def Step.idx0 (s : Step) : Step :=
  match s with
  | .val (.arr []) => .caught
  | .val (.arr (x :: _)) => .val x
  | .val (.str t) =>
    if t.isEmpty then .caught else .val (.str (String.singleton t.front))
  | .val (.obj _) => .caught
  | .val _ => .uncaught
  | x => x

/-- Result of extracting the nested text payload. -/
inductive Extracted where
  | ok : String → Extracted
  | caught : Extracted
  | uncaught : Extracted

/-- Lines 104-105 up to the argument of `json.loads`: walk
`['candidates'][0]['content']['parts'][0]['text']` and require the result
to be a string (`json.loads` on a non-string raises an uncaught
`TypeError`). -/
def extractText (review_data : JsonVal) : Extracted :=
  match (((((Step.val review_data).subKey "candidates").idx0).subKey "content").subKey
      "parts").idx0.subKey "text" with
  | .val (.str s) => .ok s
  | .val _ => .uncaught
  | .caught => .caught
  | .uncaught => .uncaught

/-! ### Rendered output model

Each Streamlit call that produces visible output becomes one
`RenderItem`; a `with st.expander(...)` block becomes an
`expanderHeader` followed by the items rendered inside it. -/

/-- One visible Streamlit output. -/
inductive RenderItem where
  | errorMsg : String → RenderItem
  | successMsg : String → RenderItem
  | subheader : String → RenderItem
  | markdown : String → RenderItem
  | rawJson : JsonVal → RenderItem
  | expanderHeader : String → Bool → RenderItem
  | code : String → String → RenderItem
  | divider : RenderItem

/-- Whether an item is a rendered code block (`st.code`). -/
def RenderItem.isCodeBlock : RenderItem → Bool
  | .code _ _ => true
  | _ => false

/-- The defensively-mapped report of lines 111-113:
`summary = report.get("summary", "No summary provided.")`,
`issues = report.get("review_report", [])`,
`fullCode = report.get("full_corrected_code")` (Python `None`, i.e. JSON
null, when the key is absent). -/
structure ReviewReport where
  summary : JsonVal
  issues : JsonVal
  fullCode : JsonVal

/-- Build the `ReviewReport` from the parsed report object (lines 111-113). -/
def mkReport (fields : List (String × JsonVal)) : ReviewReport :=
  { summary := dictGetD fields "summary" (.str "No summary provided.")
    issues := dictGetD fields "review_report" (.arr [])
    fullCode := dictGetD fields "full_corrected_code" .null }

/-- The test `i.get("severity") == sev` inside the comprehensions of lines 122-124.
`none` models the uncaught `AttributeError` raised when an element of the
iterated issues is not a dict. -/
def severityMatches (issue : JsonVal) (sev : String) : Option Bool :=
  match issue with
  | .obj fields =>
    some (match lookupKey fields "severity" with
      | some (.str s) => s == sev
      | _ => false)
  | _ => none

/-- The list comprehension `[i for i in issues if i.get("severity") == sev]`
(lines 122-124); `none` when any element raises. -/
def filterSeverity (issues : List JsonVal) (sev : String) : Option (List JsonVal) :=
  match issues with
  | [] => some []
  | i :: rest =>
    match severityMatches i sev with
    | none => none
    | some b => (filterSeverity rest sev).map (fun l => if b then i :: l else l)

/-- Render one issue inside an expander (lines 130-133 and the two
analogous loops): description markdown, fix-suggestion code block, rule. -/
def renderIssueBlock (issue : JsonVal) : Option (List RenderItem) :=
  match issue with
  | .obj fields =>
    some [ .markdown ("**Description:** " ++ pyStr (dictGetD fields "description" (.str "N/A"))),
      .code (pyStr (dictGetD fields "fix_suggestion_code" (.str "# No suggestion provided"))) "python",
      .markdown "---" ]
  | _ => none

/-- Lines 111-153 of `display_review_report`, after the report object has
been parsed: summary, empty-issues early return, severity grouping,
expanders, and the optional trailing full-code block. -/
def renderParsedReport (fields : List (String × JsonVal)) : Option (List RenderItem) :=
  let r := mkReport fields
  let head : List RenderItem := [.subheader "Review Summary", .markdown (pyStr r.summary)]
  if r.issues.truthy = false then
    some (head ++ [.successMsg "No Specific Issues Found."])
  else
    match r.issues with
    | .arr issueList =>
      match filterSeverity issueList "CRITICAL", filterSeverity issueList "MAJOR",
          filterSeverity issueList "MINOR" with
      | some crit, some maj, some minr =>
        match crit.mapM renderIssueBlock, maj.mapM renderIssueBlock,
            minr.mapM renderIssueBlock with
        | some cb, some mb, some nb =>
          some (head ++ [.markdown "---"]
            ++ (if crit.isEmpty then []
                else .expanderHeader ("Critical Issues (" ++ toString crit.length ++ ")") true
                  :: cb.flatten)
            ++ (if maj.isEmpty then []
                else .expanderHeader ("Major Issues (" ++ toString maj.length ++ ")") false
                  :: mb.flatten)
            ++ (if minr.isEmpty then []
                else .expanderHeader ("Minor Issues (" ++ toString minr.length ++ ")") false
                  :: nb.flatten)
            ++ (if r.fullCode.truthy then
                  [ .markdown "---", .subheader "Complete Suggested Code",
                    .markdown "The following code block contains all suggested fixes and can be used to replace the original file.",
                    .code (pyStr r.fullCode) "python" ]
                else []))
        | _, _, _ => none
      | _, _, _ => none
    | _ => none

/-- Function `display_review_report` (lines 101-153): extract the nested text,
`json.loads` it, and render.  `none` models an uncaught exception
(`TypeError` in the subscript chain or on `json.loads`, `AttributeError`
when the parsed report or an issue is not a dict). -/
def display_review_report (review_data : JsonVal) : Option (List RenderItem) :=
  match extractText review_data with
  | .uncaught => none
  | .caught =>
    some [.errorMsg "Failed AI Response. Format Error.", .rawJson review_data]
  | .ok s =>
    match parseJson s with
    | none =>
      some [.errorMsg "Failed AI Response. Format Error.", .rawJson review_data]
    | some (.obj fields) => renderParsedReport fields
    | some _ => none

/-! ### The review prompt (lines 65-83)

The f-string template, split at its three interpolation points so the
prompt is literally `prefix ++ title ++ mid1 ++ body ++ mid2 ++ diff ++
suffix`.  Apostrophes in the template are written via `sq`. -/

/-- Wrap a word in the template's single quotes. -/
def q (s : String) : String := sq ++ s ++ sq

/-- Template text before `{pr_title}`. -/
def promptPrefix : String :=
  "\n    You are an expert software engineer performing a detailed code review.\n    Your task is to analyze the following pull request and provide a structured JSON response.\n\n    **Pull Request Details:**\n    Title: "

/-- Template text between `{pr_title}` and `{pr_body}`. -/
def promptMid1 : String := "\n    Body: "

/-- Template text between `{pr_body}` and `{pr_diff}`. -/
def promptMid2 : String := "\n\n    **Code Changes:**\n    ```diff\n    "

/-- Closing diff fence and instructions header. -/
def instrFence : String := "\n    ```\n\n    **Instructions:**\n    "

/-- The sentence introducing the three required top-level keys. -/
def keysIntro : String :=
  "Return a single, valid JSON object with three top-level keys: "

/-- The numbered instructions after the key list, up to the issue-key list. -/
def instrSummary : String :=
  ".\n    1.  **summary**: A concise, high-level summary of your findings.\n    2.  **review_report**: An array of objects. For every issue you find (no matter how small), you MUST create a corresponding object in this array. Each object must include: "

/-- Tail of the template after the issue keys. -/
def instrTail : String :=
  " snippet showing how to fix the issue.\n    3.  **full_corrected_code**: A string containing the complete, corrected code for the file, with all your suggestions applied. This should be a ready-to-use code block that the user can copy and paste.\n    "

/-- Template text after `{pr_diff}` (the whole instructions section). -/
def promptSuffix : String :=
  instrFence ++ keysIntro
    ++ q "summary" ++ ", " ++ q "review_report" ++ ", and " ++ q "full_corrected_code"
    ++ instrSummary ++ q "file_path" ++ ", " ++ q "severity"
    ++ " (CRITICAL, MAJOR, or MINOR), " ++ q "description" ++ ", and a "
    ++ q "fix_suggestion_code" ++ instrTail

/-- The prompt f-string of lines 65-83: a pure function of the three
inputs, embedding each verbatim. -/
def buildPrompt (title body diff : String) : String :=
  promptPrefix ++ title ++ promptMid1 ++ body ++ promptMid2 ++ diff ++ promptSuffix

/-! ### The three network functions

Each takes the credential (`os.getenv` result) and an oracle describing
what its single HTTP request would produce.  `raise_for_status` errors,
connection errors, timeouts and (for the fetchers) JSON-decode errors of
the response body are all instances of the caught exception tuple, so a
failing request collapses to one `failure` constructor carrying the
exception's display text. -/

/-- Outcome of the metadata GET: a caught request exception, or a 2xx
response whose body decoded to `body`. -/
inductive MetaOutcome where
  | failure : String → MetaOutcome
  | success : JsonVal → MetaOutcome

/-- Outcome of the diff GET: a caught request exception, or a 2xx response
with raw text `text`. -/
inductive DiffOutcome where
  | failure : String → DiffOutcome
  | success : String → DiffOutcome

/-- Outcome of the completion POST: a caught request/JSON exception, or a
2xx response decoding to `body`. -/
inductive PostOutcome where
  | failure : String → PostOutcome
  | success : JsonVal → PostOutcome

/-- The dict `{"title": ..., "body": ...}` built on lines 31-34. -/
structure PRMeta where
  title : JsonVal
  body : JsonVal

/-- Result of `fetch_pr_data`: returned value, number of HTTP requests
issued, and `st.error` output. -/
structure MetaReturn where
  value : Option PRMeta
  calls : Nat
  shown : List RenderItem

/-- Function `fetch_pr_data` (lines 15-37).  Returns `none` for the uncaught
`AttributeError` raised when the decoded response body is not a dict
(`pr_details.get` on line 32). -/
def fetch_pr_data (githubToken : Option String) (net : MetaOutcome) :
    Option MetaReturn :=
  if tokenTruthy githubToken = false then
    some { value := none, calls := 0, shown := [.errorMsg "GitHub Token Not Connected"] }
  else
    match net with
    | .failure e =>
      some { value := none, calls := 1,
             shown := [.errorMsg ("Error Fetching PR Details: " ++ e)] }
    | .success (.obj fields) =>
      some { value := some { title := dictGetD fields "title" (.str "")
                             body := dictGetD fields "body" (.str "") }
             calls := 1, shown := [] }
    | .success _ => none

/-- Result of `fetch_pr_diff`. -/
structure DiffReturn where
  value : Option String
  calls : Nat
  shown : List RenderItem

/-- Function `fetch_pr_diff` (lines 39-56): same shape as the metadata fetch but
returns `response.text` verbatim; no uncaught path. -/
def fetch_pr_diff (githubToken : Option String) (net : DiffOutcome) : DiffReturn :=
  if tokenTruthy githubToken = false then
    { value := none, calls := 0, shown := [.errorMsg "GitHub Token Not Connected."] }
  else
    match net with
    | .failure e =>
      { value := none, calls := 1, shown := [.errorMsg ("Error Fetching PR Diff: " ++ e)] }
    | .success t => { value := some t, calls := 1, shown := [] }

/-- Result of `generate_structured_review`: returned envelope, request
count, the `time.sleep` delays performed (none exist in the code), the
prompt sent, and `st.error` output. -/
structure GenReturn where
  value : Option JsonVal
  calls : Nat
  sleeps : List Nat
  promptSent : Option String
  shown : List RenderItem

/-- Function `generate_structured_review` (lines 59-98): credential check, prompt
construction, one POST inside a single `try` — the function performs no
retry and no sleep (`import time` on line 5 is never used).  The title and
body arguments are the values stored in the metadata dict, interpolated
into the f-string by Python `str()`. -/
def generate_structured_review (analysisToken : Option String)
    (pr_title pr_body : JsonVal) (pr_diff : String) (net : PostOutcome) : GenReturn :=
  if tokenTruthy analysisToken = false then
    { value := none, calls := 0, sleeps := [], promptSent := none,
      shown := [.errorMsg "Gemini API Key Not Connected"] }
  else
    let prompt := buildPrompt (pyStr pr_title) (pyStr pr_body) pr_diff
    match net with
    | .failure e =>
      { value := none, calls := 1, sleeps := [], promptSent := some prompt,
        shown := [.errorMsg ("Failed Review: " ++ e)] }
    | .success body =>
      { value := some body, calls := 1, sleeps := [], promptSent := some prompt,
        shown := [] }

/-! ### The form-submit orchestrator (lines 165-184) -/

/-- Observable trace of one submit-handler run: request counts per
endpoint and the rendered output, in order. -/
structure FlowTrace where
  metaCalls : Nat
  diffCalls : Nat
  llmCalls : Nat
  shown : List RenderItem

/-- The `run_button_clicked` branch (lines 165-184): validation, the two
fetches (both always issued, lines 170-171), the truthiness gate
`if pr_data and pr_changes:` (a dict with two keys is always truthy; a
`None` or empty diff string is falsy), the completion call, and the
display.  `none` models an uncaught exception escaping the handler. -/
def runSubmit (repo_owner repo_name : String) (pr_id : Nat)
    (githubToken analysisToken : Option String)
    (metaNet : MetaOutcome) (diffNet : DiffOutcome) (llmNet : PostOutcome) :
    Option FlowTrace :=
  if repo_owner.isEmpty || repo_name.isEmpty || pr_id == 0 then
    some { metaCalls := 0, diffCalls := 0, llmCalls := 0,
           shown := [.errorMsg "Please Fill all the Fields"] }
  else
    match fetch_pr_data githubToken metaNet with
    | none => none
    | some m =>
      let d := fetch_pr_diff githubToken diffNet
      match m.value, d.value with
      | some meta, some diffText =>
        if diffText.isEmpty then
          some { metaCalls := m.calls, diffCalls := d.calls, llmCalls := 0,
                 shown := m.shown ++ d.shown
                   ++ [.errorMsg "Failed to Fetch Request Data. Please check the Details."] }
        else
          let g := generate_structured_review analysisToken meta.title meta.body diffText llmNet
          let shown2 := m.shown ++ d.shown ++ g.shown ++ [.divider, .successMsg "Analysis Complete"]
          match g.value with
          | some review_data =>
            match display_review_report review_data with
            | none => none
            | some items =>
              some { metaCalls := m.calls, diffCalls := d.calls, llmCalls := g.calls,
                     shown := shown2 ++ items }
          | none =>
            some { metaCalls := m.calls, diffCalls := d.calls, llmCalls := g.calls,
                   shown := shown2 ++ [.errorMsg "Could not generate the Review Report."] }
      | _, _ =>
        some { metaCalls := m.calls, diffCalls := d.calls, llmCalls := 0,
               shown := m.shown ++ d.shown
                 ++ [.errorMsg "Failed to Fetch Request Data. Please check the Details."] }

/-! ## Concrete fixtures used by the claim theorems -/

/-- A well-formed issue object with the given severity. -/
def demoIssue (sev desc fix : String) : JsonVal :=
  .obj [("file_path", .str "main.py"), ("severity", .str sev),
        ("description", .str desc), ("fix_suggestion_code", .str fix)]

/-- Issues with severities [CRITICAL, MINOR, MAJOR, CRITICAL]. -/
def demoIssues : List JsonVal :=
  [demoIssue "CRITICAL" "d1" "f1", demoIssue "MINOR" "d2" "f2",
   demoIssue "MAJOR" "d3" "f3", demoIssue "CRITICAL" "d4" "f4"]

/-- An issue whose severity is not an exact match of any bucket. -/
def oddIssue : JsonVal := demoIssue "critical" "d5" "f5"

/-- The nested text payload of the round-trip test. -/
def payloadC4 : String :=
  "\x7b\"summary\":\"ok\",\"review_report\":[],\"full_corrected_code\":\"\"\x7d"

/-- The fields `payloadC4` parses to. -/
def fieldsC4 : List (String × JsonVal) :=
  [("summary", .str "ok"), ("review_report", .arr []), ("full_corrected_code", .str "")]

/-- A completion envelope whose nested text is `payloadC4`. -/
def envC4 : JsonVal :=
  .obj [("candidates", .arr [.obj [("content",
    .obj [("parts", .arr [.obj [("text", .str payloadC4)]])])]])]

/-- An envelope whose `candidates` value is JSON null: the extraction path
is absent, but subscripting `None` raises `TypeError`, not `KeyError`. -/
def envNullCandidates : JsonVal := .obj [("candidates", .null)]

/-- An envelope with no `candidates` key at all. -/
def envMissing : JsonVal := .obj []

/-- An envelope whose nested text is not valid JSON. -/
def envBadJson : JsonVal :=
  .obj [("candidates", .arr [.obj [("content",
    .obj [("parts", .arr [.obj [("text", .str "not json")]])])]])]

/-- A parsed report with empty issues but a non-empty full-code field. -/
def reportEmptyIssuesWithCode : List (String × JsonVal) :=
  [("summary", .str "ok"), ("review_report", .arr []),
   ("full_corrected_code", .str "x = 1")]

/-- The single-attempt completion call against a failing endpoint. -/
def c1run : GenReturn :=
  generate_structured_review (some "key") (.str "t") (.str "b") "diff"
    (.failure "connection error")

/-! ## Claim theorems -/

/-- C1 counterexample: against an always-failing completion endpoint with
the credential configured, `generate_structured_review` performs exactly
one attempt, sleeps for no backoff delays, and returns the failure value
`None` after showing `Failed Review: ...` — it does not perform 5 attempts
with delays 2^k, so the claimed retry/backoff behaviour is false of the
code. -/
theorem c1_counterexample :
    c1run.calls = 1 ∧ c1run.sleeps = ([] : List Nat) ∧ c1run.value = none
    ∧ c1run.shown = [.errorMsg "Failed Review: connection error"]
    ∧ ¬(c1run.calls = 5) :=
  ⟨rfl, rfl, rfl, rfl, by decide⟩

/-- C1 (amended): for every configured credential and every failing
completion request, the client performs exactly one attempt, performs no
backoff sleeps, reports the error, and returns the failure signal `None`
(there is no retry loop and no `RemoteCallExhaustedError`). -/
theorem c1_single_attempt (key : Option String) (t b : JsonVal) (d e : String)
    (h : tokenTruthy key = true) :
    (generate_structured_review key t b d (.failure e)).value = none
    ∧ (generate_structured_review key t b d (.failure e)).calls = 1
    ∧ (generate_structured_review key t b d (.failure e)).sleeps = []
    ∧ (generate_structured_review key t b d (.failure e)).shown
        = [.errorMsg ("Failed Review: " ++ e)] := by
  simp [generate_structured_review, h]

/-- Witness for `c1_single_attempt` at a concrete key and error. -/
theorem c1_single_attempt_witness :
    (generate_structured_review (some "k") (.str "t") (.str "b") "d" (.failure "boom")).value = none
    ∧ (generate_structured_review (some "k") (.str "t") (.str "b") "d" (.failure "boom")).calls = 1
    ∧ (generate_structured_review (some "k") (.str "t") (.str "b") "d" (.failure "boom")).sleeps = []
    ∧ (generate_structured_review (some "k") (.str "t") (.str "b") "d" (.failure "boom")).shown
        = [.errorMsg ("Failed Review: " ++ "boom")] :=
  c1_single_attempt (some "k") (.str "t") (.str "b") "d" "boom" rfl

/-- C4: the round-trip — the envelope whose nested text is
`{"summary":"ok","review_report":[],"full_corrected_code":""}` extracts and
parses to a report with summary `"ok"`, empty issues, and a falsy
full-code field (the empty string is treated as absent, so the rendered
output has no code block); and in general an absent `summary` defaults to
the placeholder string while an absent `review_report` defaults to the
empty list. -/
theorem c4_roundtrip_and_defaults :
    (extractText envC4 = .ok payloadC4
      ∧ parseJson payloadC4 = some (.obj fieldsC4)
      ∧ (mkReport fieldsC4).summary = .str "ok"
      ∧ (mkReport fieldsC4).issues = .arr []
      ∧ (mkReport fieldsC4).fullCode.truthy = false
      ∧ display_review_report envC4
          = some [.subheader "Review Summary", .markdown "ok",
                  .successMsg "No Specific Issues Found."])
    ∧ (∀ fields, lookupKey fields "summary" = none →
        (mkReport fields).summary = .str "No summary provided.")
    ∧ (∀ fields, lookupKey fields "review_report" = none →
        (mkReport fields).issues = .arr []) := by
  refine ⟨⟨rfl, rfl, rfl, rfl, rfl, rfl⟩, ?_, ?_⟩ <;>
    intro fields h <;> simp [mkReport, dictGetD, h]

/-- Witness for the default clauses of `c4_roundtrip_and_defaults`. -/
theorem c4_roundtrip_and_defaults_witness :
    (mkReport [("review_report", JsonVal.arr [])]).summary = .str "No summary provided."
    ∧ (mkReport [("summary", JsonVal.str "s")]).issues = .arr [] :=
  ⟨c4_roundtrip_and_defaults.2.1 _ rfl, c4_roundtrip_and_defaults.2.2 _ rfl⟩

/-- C5 counterexample: on the envelope `{"candidates": null}` the expected
extraction path is absent, yet the code raises an uncaught `TypeError`
(subscripting `None` is not in the caught `(KeyError, IndexError,
json.JSONDecodeError)` tuple) instead of failing recoverably. -/
theorem c5_counterexample :
    extractText envNullCandidates = .uncaught
    ∧ display_review_report envNullCandidates = none :=
  ⟨rfl, rfl⟩

/-- C5 (amended): when the extraction path fails with a caught error
(missing key or too-short array, i.e. `KeyError`/`IndexError`), or the
extracted text is a string that is not valid JSON, the code fails
recoverably: it shows the format error and the raw envelope and raises no
uncaught exception; wrong-typed intermediate values instead raise an
uncaught `TypeError`. -/
theorem c5_recoverable_failures :
    (∀ j, extractText j = .caught →
      display_review_report j
        = some [.errorMsg "Failed AI Response. Format Error.", .rawJson j])
    ∧ (∀ j s, extractText j = .ok s → parseJson s = none →
      display_review_report j
        = some [.errorMsg "Failed AI Response. Format Error.", .rawJson j]) := by
  constructor
  · intro j h
    simp [display_review_report, h]
  · intro j s h1 h2
    simp [display_review_report, h1, h2]

/-- Witness for `c5_recoverable_failures`: a keyless envelope and a
`"not json"` payload both produce the recoverable error display. -/
theorem c5_recoverable_failures_witness :
    display_review_report envMissing
      = some [.errorMsg "Failed AI Response. Format Error.", .rawJson envMissing]
    ∧ display_review_report envBadJson
      = some [.errorMsg "Failed AI Response. Format Error.", .rawJson envBadJson] :=
  ⟨c5_recoverable_failures.1 envMissing rfl,
   c5_recoverable_failures.2 envBadJson "not json" rfl rfl⟩

/-- C7: with the relevant credential absent (`os.getenv` returned `None`),
each fetcher and the completion client reports the configuration failure
and issues zero network requests, whatever the network would have done. -/
theorem c7_missing_credentials (metaNet : MetaOutcome) (diffNet : DiffOutcome)
    (llmNet : PostOutcome) (t b : JsonVal) (d : String) :
    fetch_pr_data none metaNet
      = some { value := none, calls := 0, shown := [.errorMsg "GitHub Token Not Connected"] }
    ∧ fetch_pr_diff none diffNet
      = { value := none, calls := 0, shown := [.errorMsg "GitHub Token Not Connected."] }
    ∧ generate_structured_review none t b d llmNet
      = { value := none, calls := 0, sleeps := [], promptSent := none,
          shown := [.errorMsg "Gemini API Key Not Connected"] } :=
  ⟨rfl, rfl, rfl⟩

/-- Membership in a severity bucket implies the severity comparison
succeeded: the comprehension only keeps elements whose
`i.get("severity") == sev` test was `True`. -/
theorem mem_filterSeverity {issues : List JsonVal} {sev : String}
    {g : List JsonVal} {i : JsonVal}
    (hg : filterSeverity issues sev = some g) (hi : i ∈ g) :
    severityMatches i sev = some true := by
  induction issues generalizing g with
  | nil =>
    simp only [filterSeverity, Option.some.injEq] at hg
    subst hg
    cases hi
  | cons j rest ih =>
    simp only [filterSeverity] at hg
    cases hm : severityMatches j sev with
    | none => rw [hm] at hg; cases hg
    | some b =>
      rw [hm] at hg
      cases hr : filterSeverity rest sev with
      | none => rw [hr] at hg; cases hg
      | some l =>
        rw [hr] at hg
        simp only [Option.map_some', Option.some.injEq] at hg
        subst hg
        cases b with
        | true =>
          rcases List.mem_cons.mp (by simpa using hi) with h | h
          · subst h; exact hm
          · exact ih hr h
        | false => exact ih hr (by simpa using hi)

/-- C6: on the severity list [CRITICAL, MINOR, MAJOR, CRITICAL] the
grouping yields the CRITICAL bucket of size 2, the MAJOR bucket of size 1
and the MINOR bucket of size 1, each in original relative order; and any
issue whose severity test against a bucket's label is `False` (in
particular any severity that is not an exact match, such as a different
case) is absent from that bucket. -/
theorem c6_severity_partition :
    (filterSeverity demoIssues "CRITICAL"
        = some [demoIssue "CRITICAL" "d1" "f1", demoIssue "CRITICAL" "d4" "f4"]
      ∧ filterSeverity demoIssues "MAJOR" = some [demoIssue "MAJOR" "d3" "f3"]
      ∧ filterSeverity demoIssues "MINOR" = some [demoIssue "MINOR" "d2" "f2"])
    ∧ (∀ issues sev g i, filterSeverity issues sev = some g →
        severityMatches i sev = some false → i ∉ g) := by
  refine ⟨⟨rfl, rfl, rfl⟩, ?_⟩
  intro issues sev g i hg hf hi
  have h := mem_filterSeverity hg hi
  rw [hf] at h
  simp at h

/-- Witness for `c6_severity_partition`: the lowercase-severity issue is
dropped from all three buckets of the extended list. -/
theorem c6_severity_partition_witness :
    oddIssue ∉ [demoIssue "CRITICAL" "d1" "f1", demoIssue "CRITICAL" "d4" "f4"]
    ∧ oddIssue ∉ [demoIssue "MAJOR" "d3" "f3"]
    ∧ oddIssue ∉ [demoIssue "MINOR" "d2" "f2"] :=
  ⟨c6_severity_partition.2 (demoIssues ++ [oddIssue]) "CRITICAL"
      [demoIssue "CRITICAL" "d1" "f1", demoIssue "CRITICAL" "d4" "f4"] oddIssue rfl rfl,
   c6_severity_partition.2 (demoIssues ++ [oddIssue]) "MAJOR"
      [demoIssue "MAJOR" "d3" "f3"] oddIssue rfl rfl,
   c6_severity_partition.2 (demoIssues ++ [oddIssue]) "MINOR"
      [demoIssue "MINOR" "d2" "f2"] oddIssue rfl rfl⟩

/-- A list ending in a four-element block ends in that block's last
element. -/
theorem exists_prefix_last {α : Type} (X : List α) (a b c d : α) :
    ∃ pre, X ++ [a, b, c, d] = pre ++ [d] :=
  ⟨X ++ [a, b, c], by simp⟩

/-- C3 counterexample: a report with empty issues and the non-empty
full-code string `"x = 1"` renders only the summary and the success
indicator — no code block at all — because the empty-issues early return
(line 120) precedes the full-code rendering (line 149). -/
theorem c3_counterexample :
    lookupKey reportEmptyIssuesWithCode "full_corrected_code" = some (.str "x = 1")
    ∧ renderParsedReport reportEmptyIssuesWithCode
        = some [.subheader "Review Summary", .markdown "ok",
                .successMsg "No Specific Issues Found."]
    ∧ ([.subheader "Review Summary", .markdown "ok",
        .successMsg "No Specific Issues Found."] : List RenderItem).all
          (fun i => !i.isCodeBlock) = true :=
  ⟨rfl, rfl, rfl⟩

/-- C3 (amended): when the issue list is truthy (non-empty) and rendering
succeeds, a truthy full-code field is rendered as the final code block;
and when the issue list is falsy (in particular empty) the output is
exactly the summary plus the neutral success indicator — no groups and no
code block, even if a full-code field is present. -/
theorem c3_rendering :
    (∀ fields l, renderParsedReport fields = some l →
      (mkReport fields).issues.truthy = true →
      (mkReport fields).fullCode.truthy = true →
      ∃ pre, l = pre ++ [.code (pyStr (mkReport fields).fullCode) "python"])
    ∧ (∀ fields, (mkReport fields).issues.truthy = false →
      renderParsedReport fields
        = some [.subheader "Review Summary", .markdown (pyStr (mkReport fields).summary),
                .successMsg "No Specific Issues Found."]) := by
  constructor
  · intro fields l hrender hIssues hFc
    simp only [renderParsedReport, hIssues] at hrender
    rw [if_neg (by simp)] at hrender
    split at hrender <;> try exact Option.noConfusion hrender
    split at hrender <;> try exact Option.noConfusion hrender
    split at hrender <;> try exact Option.noConfusion hrender
    rw [hFc, if_pos rfl] at hrender
    cases hrender
    exact exists_prefix_last _ _ _ _ _
  · intro fields h
    simp [renderParsedReport, h]

/-- Witness for `c3_rendering` at a concrete one-issue report with a
full-code field, and a concrete empty-issue report. -/
theorem c3_rendering_witness :
    (∃ pre, [RenderItem.subheader "Review Summary", .markdown "s", .markdown "---",
        .expanderHeader "Critical Issues (1)" true,
        .markdown "**Description:** d1", .code "f1" "python", .markdown "---",
        .markdown "---", .subheader "Complete Suggested Code",
        .markdown "The following code block contains all suggested fixes and can be used to replace the original file.",
        .code "CODE" "python"]
      = pre ++ [RenderItem.code (pyStr (mkReport
          [("summary", JsonVal.str "s"),
           ("review_report", JsonVal.arr [demoIssue "CRITICAL" "d1" "f1"]),
           ("full_corrected_code", JsonVal.str "CODE")]).fullCode) "python"])
    ∧ renderParsedReport [("summary", JsonVal.str "s"), ("review_report", JsonVal.arr [])]
      = some [.subheader "Review Summary", .markdown "s",
              .successMsg "No Specific Issues Found."] :=
  ⟨c3_rendering.1
      [("summary", JsonVal.str "s"),
       ("review_report", JsonVal.arr [demoIssue "CRITICAL" "d1" "f1"]),
       ("full_corrected_code", JsonVal.str "CODE")] _ rfl rfl rfl,
   c3_rendering.2 [("summary", JsonVal.str "s"), ("review_report", JsonVal.arr [])] rfl⟩

/-- C9: when the form passes validation, the GitHub token is configured and
the diff fetch succeeds with the empty string, the submit handler's
truthiness gate treats the run as a fetch failure: it shows the
fetch-failure error and never invokes the completion client, although both
fetches were issued. -/
theorem c9_empty_diff_is_failure (owner name : String) (prId : Nat)
    (gh gem : Option String) (fields : List (String × JsonVal)) (llmNet : PostOutcome)
    (hv : (owner.isEmpty || name.isEmpty || prId == 0) = false)
    (hgh : tokenTruthy gh = true) :
    (fetch_pr_diff gh (.success "")).value = some ""
    ∧ runSubmit owner name prId gh gem (.success (.obj fields)) (.success "") llmNet
        = some { metaCalls := 1, diffCalls := 1, llmCalls := 0,
                 shown := [.errorMsg "Failed to Fetch Request Data. Please check the Details."] } := by
  have he : ("" : String).isEmpty = true := rfl
  constructor
  · simp [fetch_pr_diff, hgh]
  · simp [runSubmit, hv, fetch_pr_data, fetch_pr_diff, hgh, he]

/-- Witness for `c9_empty_diff_is_failure` at concrete inputs. -/
theorem c9_empty_diff_is_failure_witness :
    (fetch_pr_diff (some "t") (.success "")).value = some ""
    ∧ runSubmit "octo" "demo" 7 (some "t") (some "k")
        (.success (.obj [("title", JsonVal.str "T"), ("body", JsonVal.str "B")]))
        (.success "") (.success .null)
        = some { metaCalls := 1, diffCalls := 1, llmCalls := 0,
                 shown := [.errorMsg "Failed to Fetch Request Data. Please check the Details."] } :=
  c9_empty_diff_is_failure "octo" "demo" 7 (some "t") (some "k")
    [("title", JsonVal.str "T"), ("body", JsonVal.str "B")] (.success .null) rfl rfl

/-- C2 counterexample: with the metadata fetch failing and the diff fetch
succeeding, the submit handler still issues the diff request
(`diffCalls = 1`): line 171 runs unconditionally after line 170, so the
flow does not short-circuit between the two fetches. The completion
client is nevertheless not invoked. -/
theorem c2_counterexample :
    (fetch_pr_data (some "t") (.failure "connection refused")).map (fun m => m.value)
      = some none
    ∧ runSubmit "octo" "demo" 7 (some "t") (some "k") (.failure "connection refused")
        (.success "some diff") (.success .null)
      = some { metaCalls := 1, diffCalls := 1, llmCalls := 0,
               shown := [.errorMsg "Error Fetching PR Details: connection refused",
                         .errorMsg "Failed to Fetch Request Data. Please check the Details."] } :=
  ⟨rfl, rfl⟩

/-- C2 (amended): both fetches are issued unconditionally in sequence —
the diff request count always equals what `fetch_pr_diff` itself reports —
but the completion client is never invoked when either fetch failed (the
metadata fetch returned `None`, or the diff fetch returned `None` or the
falsy empty string). -/
theorem c2_llm_gated (owner name : String) (prId : Nat) (gh gem : Option String)
    (metaNet : MetaOutcome) (diffNet : DiffOutcome) (llmNet : PostOutcome)
    (t : FlowTrace) (mr : MetaReturn)
    (hv : (owner.isEmpty || name.isEmpty || prId == 0) = false)
    (hm : fetch_pr_data gh metaNet = some mr)
    (hfail : mr.value = none ∨ (fetch_pr_diff gh diffNet).value = none
      ∨ (fetch_pr_diff gh diffNet).value = some "")
    (ht : runSubmit owner name prId gh gem metaNet diffNet llmNet = some t) :
    t.llmCalls = 0 ∧ t.diffCalls = (fetch_pr_diff gh diffNet).calls := by
  simp only [runSubmit, hv, Bool.false_eq_true, if_false, hm] at ht
  rcases hfail with hf | hf | hf
  · rw [hf] at ht
    cases hd : (fetch_pr_diff gh diffNet).value with
    | none => rw [hd] at ht; cases ht; exact ⟨rfl, rfl⟩
    | some diffText => rw [hd] at ht; cases ht; exact ⟨rfl, rfl⟩
  · rw [hf] at ht
    cases hmv : mr.value with
    | none => rw [hmv] at ht; cases ht; exact ⟨rfl, rfl⟩
    | some meta => rw [hmv] at ht; cases ht; exact ⟨rfl, rfl⟩
  · rw [hf] at ht
    cases hmv : mr.value with
    | none => rw [hmv] at ht; cases ht; exact ⟨rfl, rfl⟩
    | some meta =>
      rw [hmv] at ht
      cases ht
      exact ⟨rfl, rfl⟩

/-- The trace of the concrete run used to witness `c2_llm_gated`. -/
def c2trace : FlowTrace :=
  { metaCalls := 1, diffCalls := 1, llmCalls := 0,
    shown := [.errorMsg "Error Fetching PR Details: down",
              .errorMsg "Failed to Fetch Request Data. Please check the Details."] }

/-- Witness for `c2_llm_gated` at a concrete failing metadata fetch. -/
theorem c2_llm_gated_witness :
    c2trace.llmCalls = 0
    ∧ c2trace.diffCalls = (fetch_pr_diff (some "t") (.success "d")).calls :=
  c2_llm_gated "octo" "demo" 7 (some "t") (some "k") (.failure "down")
    (.success "d") (.success .null) c2trace
    { value := none, calls := 1, shown := [.errorMsg "Error Fetching PR Details: down"] }
    rfl rfl (Or.inl rfl) rfl

/-- C8: the prompt is a pure function of (title, body, diff) that embeds
each of the three inputs verbatim as a contiguous substring, and its
instruction section names the three required top-level keys, the four
required issue-object keys, and the allowed severity set. -/
theorem c8_prompt_builder (title body diff : String) :
    (∃ l r, buildPrompt title body diff = l ++ title ++ r)
    ∧ (∃ l r, buildPrompt title body diff = l ++ body ++ r)
    ∧ (∃ l r, buildPrompt title body diff = l ++ diff ++ r)
    ∧ (∃ l r, buildPrompt title body diff
        = l ++ (keysIntro ++ q "summary" ++ ", " ++ q "review_report" ++ ", and "
            ++ q "full_corrected_code") ++ r)
    ∧ (∃ l r, buildPrompt title body diff
        = l ++ (q "file_path" ++ ", " ++ q "severity" ++ " (CRITICAL, MAJOR, or MINOR), "
            ++ q "description" ++ ", and a " ++ q "fix_suggestion_code") ++ r) := by
  refine ⟨⟨promptPrefix, promptMid1 ++ body ++ promptMid2 ++ diff ++ promptSuffix, ?_⟩,
    ⟨promptPrefix ++ title ++ promptMid1, promptMid2 ++ diff ++ promptSuffix, ?_⟩,
    ⟨promptPrefix ++ title ++ promptMid1 ++ body ++ promptMid2, promptSuffix, ?_⟩,
    ⟨promptPrefix ++ title ++ promptMid1 ++ body ++ promptMid2 ++ diff ++ instrFence,
      instrSummary ++ q "file_path" ++ ", " ++ q "severity"
        ++ " (CRITICAL, MAJOR, or MINOR), " ++ q "description" ++ ", and a "
        ++ q "fix_suggestion_code" ++ instrTail, ?_⟩,
    ⟨promptPrefix ++ title ++ promptMid1 ++ body ++ promptMid2 ++ diff ++ instrFence
        ++ keysIntro ++ q "summary" ++ ", " ++ q "review_report" ++ ", and "
        ++ q "full_corrected_code" ++ instrSummary,
      instrTail, ?_⟩⟩ <;>
    simp only [buildPrompt, promptSuffix, String.append_assoc]

/-- C10: the metadata fetcher's empty-string default applies only when the
key is absent; a key present with JSON null comes back as `None`
(`JsonVal.null`), and a null body reaches the prompt as the text `None`
(rendered by the f-string), so the prompt contains `Body: None`. -/
theorem c10_null_body_propagates (llmNet : PostOutcome) :
    (fetch_pr_data (some "tok") (.success (.obj [("title", JsonVal.str "T")]))).map
        (fun m => m.value)
      = some (some { title := .str "T", body := .str "" })
    ∧ (fetch_pr_data (some "tok")
          (.success (.obj [("title", JsonVal.str "T"), ("body", JsonVal.null)]))).map
        (fun m => m.value)
      = some (some { title := .str "T", body := .null })
    ∧ (generate_structured_review (some "k") (.str "T") .null "d" llmNet).promptSent
      = some (buildPrompt "T" "None" "d")
    ∧ (∃ l r, buildPrompt "T" "None" "d" = l ++ "Body: None" ++ r) := by
  refine ⟨rfl, rfl, ?_, ?_⟩
  · cases llmNet <;> rfl
  · exact ⟨promptPrefix ++ "T" ++ "\n    ",
      promptMid2 ++ "d" ++ promptSuffix, by
        simp only [buildPrompt, String.append_assoc]
        rfl⟩

end PRReview
